import Mathlib

/-!
Verification of the Jira API client (`Jira-api-example/JiraApi.py`).

The development shallowly embeds the client logic: HTTP traffic is abstracted
as outcome functions (attempt index to outcome), machine behaviour such as
`sys.exit` and uncaught exceptions is made explicit in a `PyOutcome` type, and
the pure helpers (`base64.b64decode`, `bytes.decode`, `urllib.parse.quote`,
`range`) are given executable models over `Nat`-valued bytes.
-/

set_option maxRecDepth 10000

/-- Parsed JSON values. JSON numbers are modelled as integers (the fields the
client reads, such as `total`, are integral); JSON booleans are kept separate
because Python treats them as integers when they reach `range`. -/
inductive Json where
  | obj : List (String × Json) → Json
  | arr : List Json → Json
  | str : String → Json
  | num : Int → Json
  | bool : Bool → Json
  | null : Json

/-- Outcome of one attempt of an HTTP request: a transport-level exception
(`aiohttp.ClientError`) or a response carrying a status code and a parsed
JSON body. -/
inductive TryOutcome where
  | exn : TryOutcome
  | resp : Nat → Json → TryOutcome

/-- Result of running a piece of Python code: a returned value, a process
exit via `sys.exit(code)`, or an uncaught exception (named by its class). -/
inductive PyOutcome (α : Type) where
  | ret : α → PyOutcome α
  | exited : Nat → PyOutcome α
  | raised : String → PyOutcome α
deriving DecidableEq

/-- A record of an outbound HTTP request: the initial probe (with its search
pattern) or a page fetch (with its `startAt` offset). -/
inductive Req where
  | probe : String → Req
  | page : Nat → Req
deriving DecidableEq

/-- Configuration of `JiraAPI.__init__`: `max_results` is set to 20 by the
constructor. The `timeout` and TLS options do not affect the control flow
modelled here and are omitted. -/
structure JiraAPI where
  jira_host : String
  jira_username : String
  jira_password : String
  attempts : Nat
  max_results : Nat
deriving DecidableEq

/-- The behaviour of the network during one `select` or `authenticate` call:
for the probe and for each page offset, the outcome of each retry attempt
(attempt index to outcome). -/
structure Scenario where
  probeTries : Nat → TryOutcome
  pageTries : Nat → Nat → TryOutcome

/-- An attempt outcome is retried by the configured `aiohttp_retry` options
when it is a transport exception or its status is one of
`(500, 502, 503, 504)` (the `statuses` tuple in `retry_options`). -/
def retryableOutcome : TryOutcome → Bool
  | TryOutcome.exn => true
  | TryOutcome.resp s _ => s == 500 || s == 502 || s == 503 || s == 504

/-- Retry loop: with `n` further attempts allowed, attempt `i` is taken; a
retryable outcome is retried while attempts remain, otherwise the outcome
becomes the result of the request (the last response is returned, the last
exception re-raised). -/
def retryGo (tries : Nat → TryOutcome) (i : Nat) : Nat → TryOutcome
  | 0 => tries i
  | n + 1 => if retryableOutcome (tries i) then retryGo tries (i + 1) n else tries i

/-- A request issued through the `aiohttp_retry.RetryClient` configured with
`attempts` attempts: up to `attempts` tries, stopping at the first
non-retryable outcome. -/
def retryRequest (attempts : Nat) (tries : Nat → TryOutcome) : TryOutcome :=
  retryGo tries 0 (attempts - 1)

/-- Index of a character in the base64 alphabet, `none` for characters
outside it. -/
def b64CharIndex (c : Char) : Option Nat :=
  if 'A' ≤ c ∧ c ≤ 'Z' then some (c.toNat - 65)
  else if 'a' ≤ c ∧ c ≤ 'z' then some (c.toNat - 97 + 26)
  else if '0' ≤ c ∧ c ≤ '9' then some (c.toNat - 48 + 52)
  else if c = '+' then some 62
  else if c = '/' then some 63
  else none

/-- Convert groups of four base64 sextets to three bytes each. -/
def sextetsToBytes : List Nat → List Nat
  | a :: b :: c :: d :: rest =>
      (a * 4 + b / 16) :: ((b % 16) * 16 + c / 4) :: ((c % 4) * 64 + d) :: sextetsToBytes rest
  | _ => []

/-- Model of `base64.b64decode` with its default lenient validation, for
inputs without padding characters (the credential strings handled in this
development contain none): characters outside the base64 alphabet are
discarded, then the remaining length must be a multiple of 4. -/
def b64decodeBytes (s : String) : Except String (List Nat) :=
  let ds := s.data.filterMap b64CharIndex
  if ds.length % 4 = 1 then
    Except.error "binascii.Error: Invalid base64-encoded string"
  else if ds.length % 4 = 0 then
    Except.ok (sextetsToBytes ds)
  else
    Except.error "binascii.Error: Incorrect padding"

/-- Whether a byte is a UTF-8 continuation byte. -/
def isCont (b : Nat) : Bool := 128 ≤ b && b ≤ 191

/-- Model of strict UTF-8 decoding (`bytes.decode()`): rejects stray
continuation bytes, truncated sequences, overlong encodings and surrogates,
as CPython does. -/
def utf8DecodeAux : Nat → List Nat → Except String (List Char)
  | _, [] => Except.ok []
  | 0, _ :: _ => Except.error "UnicodeDecodeError"
  | fuel + 1, b :: rest =>
    if b ≤ 127 then
      (utf8DecodeAux fuel rest).map (fun cs => Char.ofNat b :: cs)
    else if 194 ≤ b && b ≤ 223 then
      match rest with
      | c :: rest2 =>
        if isCont c then
          (utf8DecodeAux fuel rest2).map (fun cs => Char.ofNat ((b - 192) * 64 + (c - 128)) :: cs)
        else Except.error "UnicodeDecodeError"
      | [] => Except.error "UnicodeDecodeError"
    else if 224 ≤ b && b ≤ 239 then
      match rest with
      | c :: d :: rest3 =>
        if (if b = 224 then 160 ≤ c && c ≤ 191
            else if b = 237 then 128 ≤ c && c ≤ 159
            else isCont c) && isCont d then
          (utf8DecodeAux fuel rest3).map
            (fun cs => Char.ofNat ((b - 224) * 4096 + (c - 128) * 64 + (d - 128)) :: cs)
        else Except.error "UnicodeDecodeError"
      | _ => Except.error "UnicodeDecodeError"
    else if 240 ≤ b && b ≤ 244 then
      match rest with
      | c :: d :: e :: rest4 =>
        if (if b = 240 then 144 ≤ c && c ≤ 191
            else if b = 244 then 128 ≤ c && c ≤ 143
            else isCont c) && isCont d && isCont e then
          (utf8DecodeAux fuel rest4).map
            (fun cs =>
              Char.ofNat ((b - 240) * 262144 + (c - 128) * 4096 + (d - 128) * 64 + (e - 128)) :: cs)
        else Except.error "UnicodeDecodeError"
      | _ => Except.error "UnicodeDecodeError"
    else Except.error "UnicodeDecodeError"

/-- Model of `bytes.decode()` on a byte list. The fuel, one unit per
consumed leading byte, is at least the length of the list, so it never runs
out before the list is exhausted. -/
def utf8Decode (bs : List Nat) : Except String String :=
  (utf8DecodeAux bs.length bs).map (fun cs => String.mk cs)

/-- Embedding of `JiraAPI.get_auth_header`: the source computes
`base64.b64decode(f"{username}:{password}".encode()).decode()` — it DECODES
the credential pair. Errors carry the Python exception raised. -/
def get_auth_header (username password : String) : Except String String :=
  let user_pass := username ++ ":" ++ password
  match b64decodeBytes user_pass with
  | Except.error e => Except.error e
  | Except.ok bytes => utf8Decode bytes

/-- Character of a base64 sextet. -/
def b64Char (n : Nat) : Char :=
  if n < 26 then Char.ofNat (65 + n)
  else if n < 52 then Char.ofNat (97 + (n - 26))
  else if n < 62 then Char.ofNat (48 + (n - 52))
  else if n = 62 then '+'
  else '/'

/-- Standard base64 encoding of a byte list, with padding. -/
def b64encodeBytes : List Nat → List Char
  | a :: b :: c :: rest =>
      b64Char (a / 4) :: b64Char ((a % 4) * 16 + b / 16) ::
        b64Char ((b % 16) * 4 + c / 64) :: b64Char (c % 64) :: b64encodeBytes rest
  | [a, b] => [b64Char (a / 4), b64Char ((a % 4) * 16 + b / 16), b64Char ((b % 16) * 4), '=']
  | [a] => [b64Char (a / 4), b64Char ((a % 4) * 16), '=', '=']
  | [] => []

/-- UTF-8 encoding of one character as a byte list. -/
def utf8EncodeCharB (c : Char) : List Nat :=
  let n := c.toNat
  if n < 128 then [n]
  else if n < 2048 then [192 + n / 64, 128 + n % 64]
  else if n < 65536 then [224 + n / 4096, 128 + (n / 64) % 64, 128 + n % 64]
  else [240 + n / 262144, 128 + (n / 4096) % 64, 128 + (n / 64) % 64, 128 + n % 64]

/-- UTF-8 bytes of a string (model of `str.encode()`). -/
def strBytes (s : String) : List Nat :=
  (s.data.map utf8EncodeCharB).flatten

/-- Reference definition following the words of the spec (RFC 7617): the
Basic credential value is the base64 ENCODING of the credential pair. -/
def b64encode (s : String) : String :=
  String.mk (b64encodeBytes (strBytes s))

/-- Uppercase hexadecimal digit. -/
def hexDigit (n : Nat) : Char :=
  if n < 10 then Char.ofNat (48 + n) else Char.ofNat (65 + (n - 10))

/-- Bytes `urllib.parse.quote` never escapes regardless of `safe`:
ASCII letters, digits and `_ . - ~`. -/
def alwaysSafeByte (b : Nat) : Bool :=
  (65 ≤ b && b ≤ 90) || (97 ≤ b && b ≤ 122) || (48 ≤ b && b ≤ 57) ||
    b == 95 || b == 46 || b == 45 || b == 126

/-- Percent-encode a byte sequence: bytes in the always-safe set or in
`safe` are kept literal, every other byte becomes `%XX`. -/
def quoteBytes (safe : List Nat) : List Nat → List Char
  | [] => []
  | b :: rest =>
    (if alwaysSafeByte b || safe.contains b then [Char.ofNat b]
     else ['%', hexDigit (b / 16), hexDigit (b % 16)]) ++ quoteBytes safe rest

/-- Model of `urllib.parse.quote(s, safe)` on the UTF-8 bytes of `s`. -/
def pyQuote (safe : List Nat) (s : String) : String :=
  String.mk (quoteBytes safe (strBytes s))

/-- The `safe` set used by `select`: the bytes of `'/?:=,&'`. -/
def jiraSafe : List Nat := [47, 63, 58, 61, 44, 38]

/-- Result of `handle_response` for a response that was received: either the
response passes through or the process exits with code 1. -/
inductive HandleResult where
  | passed : HandleResult
  | exit1 : HandleResult
deriving DecidableEq

/-- Embedding of `JiraAPI.handle_response` on a received response:
`response.raise_for_status()` raises `aiohttp.ClientResponseError` exactly
for statuses `>= 400`; the handler then logs a distinct message for 404,
logs status and reason otherwise, and calls `sys.exit(1)`. Statuses below
400 pass through with no error log. Returns the log lines and the result. -/
def handle_response (status : Nat) (reason url : String) : List String × HandleResult :=
  if 400 ≤ status then
    if status = 404 then
      (["Resource not found " ++ url], HandleResult.exit1)
    else
      (["Error during request: " ++ toString status ++ ", message=\x27" ++ reason ++ "\x27",
        "Status code: " ++ toString status], HandleResult.exit1)
  else
    ([], HandleResult.passed)

/-- Control-flow part of `handle_response` (independent of the logged text). -/
def handleResult (status : Nat) : HandleResult :=
  (handle_response status "" "").2

/-- Value returned by the body of `JiraAPI.fetch` once the request headers
were built: the parsed body on status 200, the empty list otherwise, and the
empty list when the request or the JSON parse raised (caught by the
`except Exception` block, which logs and returns `[]`). -/
def fetchVal : TryOutcome → Json
  | TryOutcome.exn => Json.arr []
  | TryOutcome.resp s b => if s = 200 then b else Json.arr []

/-- Embedding of `JiraAPI.fetch`: it first calls `get_auth_header` inside its
`try` block; if that raises, the `except` block itself raises `NameError`
because it logs `url`, a local assigned only after the headers. Otherwise
the outcome of the (single, unretried) request attempt decides the value. -/
def fetch (auth : Except String String) (o : TryOutcome) : Except String Json :=
  match auth with
  | Except.error _ => Except.error "NameError"
  | Except.ok _ => Except.ok (fetchVal o)

/-- Lookup in a JSON object, mirroring `dict.get` on the parsed body. -/
def jsonLookup : List (String × Json) → String → Option Json
  | [], _ => none
  | (k, v) :: rest, key => if k = key then some v else jsonLookup rest key

/-- Embedding of `issues = data.get("total", 0)` followed by its use in
`range`: a missing key yields 0; a non-object body raises `AttributeError`
at `.get`; a non-integer value raises `TypeError` at `range` (Python
booleans count as integers). -/
def pyTotal : Json → Except String Int
  | Json.obj kvs =>
      match jsonLookup kvs "total" with
      | none => Except.ok 0
      | some (Json.num n) => Except.ok n
      | some (Json.bool b) => Except.ok (if b then 1 else 0)
      | some _ => Except.error "TypeError"
  | _ => Except.error "AttributeError"

/-- Model of `range(0, stop, step)` for a possibly negative `stop`: the
starts `0, step, 2*step, ...` strictly below `stop`. -/
def pyRangeI (stop : Int) (step : Nat) : List Nat :=
  (List.range ((stop.toNat + step - 1) / step)).map (fun i => i * step)

/-- Model of `asyncio.gather` without `return_exceptions`: a raised
exception propagates, otherwise the list of results is returned. -/
def gatherExcept : List (Except String Json) → Except String (List Json)
  | [] => Except.ok []
  | Except.error e :: _ => Except.error e
  | Except.ok x :: rest =>
    match gatherExcept rest with
    | Except.ok l => Except.ok (x :: l)
    | Except.error e => Except.error e

/-- The search pattern built by `select`: the JQL percent-encoded with
`safe='/?:=,&'`, plus `maxResults`, `expand` and `fields` parameters. -/
def searchPattern (jql : String) (maxResults : Nat) (expand fields : String) : String :=
  "search?jql=" ++ pyQuote jiraSafe jql ++ "&maxResults=" ++ toString maxResults ++
    "&expand=" ++ expand ++ "&fields=" ++ fields

/-- Embedding of `JiraAPI.select`. The returned pair is the list of issued
requests (probe, then page fetches) and the call outcome. Mirrors the
source: empty or missing JQL exits with code 1 before any request; the probe
goes through the retry client; a probe status `>= 400` exits inside
`handle_response`; a probe status 200 reads `total` and gathers one `fetch`
per offset of `range(0, total, max_results)`, each issued on the plain
session (a single attempt); any other status below 400 reaches
`return results` with `results` unassigned, raising `UnboundLocalError`. -/
def select (api : JiraAPI) (jql : Option String) (expand fields : String)
    (sc : Scenario) : List Req × PyOutcome (List Json) :=
  match jql with
  | none => ([], PyOutcome.exited 1)
  | some q =>
    if q = "" then ([], PyOutcome.exited 1)
    else
      let pattern := searchPattern q api.max_results expand fields
      match get_auth_header api.jira_username api.jira_password with
      | Except.error e => ([], PyOutcome.raised e)
      | Except.ok hdr =>
        match retryRequest api.attempts sc.probeTries with
        | TryOutcome.exn => ([Req.probe pattern], PyOutcome.raised "aiohttp.ClientError")
        | TryOutcome.resp s body =>
          match handleResult s with
          | HandleResult.exit1 => ([Req.probe pattern], PyOutcome.exited 1)
          | HandleResult.passed =>
            if s = 200 then
              match pyTotal body with
              | Except.error e => ([Req.probe pattern], PyOutcome.raised e)
              | Except.ok t =>
                let starts := pyRangeI t api.max_results
                let fetched := starts.map
                  (fun st => fetch (Except.ok hdr) (sc.pageTries st 0))
                match gatherExcept fetched with
                | Except.ok l => (Req.probe pattern :: starts.map Req.page, PyOutcome.ret l)
                | Except.error e =>
                    (Req.probe pattern :: starts.map Req.page, PyOutcome.raised e)
            else ([Req.probe pattern], PyOutcome.raised "UnboundLocalError")

/-- Embedding of `JiraAPI.authenticate`. The guard is the source condition
`if not self.jira_username or self.jira_password` verbatim; an exception
from `get_auth_header` or a transport failure of the probe is caught by the
`except Exception` block and yields `False`; but a probe status `>= 400`
makes `handle_response` call `sys.exit(1)`, and `SystemExit` is not an
`Exception`, so the process exits. -/
def authenticate (api : JiraAPI) (probeTries : Nat → TryOutcome) : PyOutcome Bool :=
  if api.jira_username = "" ∨ api.jira_password ≠ "" then PyOutcome.ret false
  else
    match get_auth_header api.jira_username api.jira_password with
    | Except.error _ => PyOutcome.ret false
    | Except.ok _ =>
      match retryRequest api.attempts probeTries with
      | TryOutcome.exn => PyOutcome.ret false
      | TryOutcome.resp s _ =>
        match handleResult s with
        | HandleResult.exit1 => PyOutcome.exited 1
        | HandleResult.passed =>
          if 200 ≤ s ∧ s < 300 then PyOutcome.ret true else PyOutcome.ret false

/-! ### Helper lemmas -/

/-- Appending strings built from character lists appends the lists. -/
theorem string_mk_append (a b : List Char) :
    String.mk a ++ String.mk b = String.mk (a ++ b) :=
  rfl

/-- UTF-8 encoding distributes over string append. -/
theorem strBytes_append (s t : String) :
    strBytes (s ++ t) = strBytes s ++ strBytes t := by
  cases s with
  | mk a =>
    cases t with
    | mk b =>
      show strBytes (String.mk (a ++ b)) = _
      simp [strBytes]

/-- Percent-encoding distributes over byte-list append. -/
theorem quoteBytes_append (safe : List Nat) (a b : List Nat) :
    quoteBytes safe (a ++ b) = quoteBytes safe a ++ quoteBytes safe b := by
  induction a with
  | nil => rfl
  | cons x xs ih => simp [quoteBytes, ih]

/-- Percent-encoding distributes over string append. -/
theorem pyQuote_append (safe : List Nat) (s t : String) :
    pyQuote safe (s ++ t) = pyQuote safe s ++ pyQuote safe t := by
  simp [pyQuote, strBytes_append, quoteBytes_append, string_mk_append]

/-- Characterization of the ceiling-division bound used by `pyRangeI`. -/
theorem lt_ceil_iff (p t i : Nat) (hp : 0 < p) :
    i < (t + p - 1) / p ↔ i * p < t := by
  rw [Nat.lt_iff_add_one_le, Nat.le_div_iff_mul_le hp]
  have h : (i + 1) * p = i * p + p := by ring
  omega

/-- Membership in the modelled `range(0, total, step)`. -/
theorem mem_pyRangeI (t p x : Nat) (hp : 0 < p) :
    x ∈ pyRangeI (t : Int) p ↔ p ∣ x ∧ x < t := by
  have ht : ((t : Int)).toNat = t := by omega
  simp only [pyRangeI, ht, List.mem_map, List.mem_range]
  constructor
  · rintro ⟨i, hi, rfl⟩
    exact ⟨dvd_mul_left p i, (lt_ceil_iff p t i hp).1 hi⟩
  · rintro ⟨⟨k, rfl⟩, hx⟩
    exact ⟨k, (lt_ceil_iff p t k hp).2 (by simpa [Nat.mul_comm] using hx), by ring⟩

/-- An empty total produces no page offsets. -/
theorem pyRangeI_zero (p : Nat) : pyRangeI (0 : Int) p = [] := by
  have h0 : (p - 1) / p = 0 := by
    rcases Nat.eq_zero_or_pos p with hp | hp
    · subst hp; rfl
    · apply Nat.div_eq_of_lt; omega
  simp [pyRangeI, h0]

/-- Statuses below 400 pass through `handle_response` unexited. -/
theorem handleResult_passed (s : Nat) (h : s < 400) :
    handleResult s = HandleResult.passed := by
  simp [handleResult, handle_response, if_neg (by omega : ¬ 400 ≤ s)]

/-- Statuses of 400 and above exit inside `handle_response`. -/
theorem handleResult_exit (s : Nat) (h : 400 ≤ s) :
    handleResult s = HandleResult.exit1 := by
  by_cases h4 : s = 404 <;> simp [handleResult, handle_response, if_pos h, h4]

/-- Gathering a list of non-raising tasks returns all their values. -/
theorem gatherExcept_map_ok {α : Type} (g : α → Json) (l : List α) :
    gatherExcept (l.map (fun a => Except.ok (g a))) = Except.ok (l.map g) := by
  induction l with
  | nil => rfl
  | cons x xs ih => simp [gatherExcept, ih]

/-- Unfolding of `select` when the probe ends with status 200 and a body
whose `total` reads as `t`: the probe plus one page request per offset are
issued and the page values (one unretried attempt each) are returned. -/
theorem select_probe200 (api : JiraAPI) (sc : Scenario) (q e f hdr : String)
    (body : Json) (t : Int)
    (hq : q ≠ "")
    (hauth : get_auth_header api.jira_username api.jira_password = Except.ok hdr)
    (hprobe : retryRequest api.attempts sc.probeTries = TryOutcome.resp 200 body)
    (htot : pyTotal body = Except.ok t) :
    select api (some q) e f sc =
      (Req.probe (searchPattern q api.max_results e f) ::
         (pyRangeI t api.max_results).map Req.page,
       PyOutcome.ret ((pyRangeI t api.max_results).map (fun st => fetchVal (sc.pageTries st 0)))) := by
  simp only [select, if_neg hq, hauth, hprobe, htot,
    handleResult_passed 200 (by omega), if_pos rfl, fetch, gatherExcept_map_ok,
    eq_self_iff_true, if_true]

/-- Unfolding of `select` when the probe response passes `handle_response`
(status below 400) but is not exactly 200: the `return results` line raises
`UnboundLocalError`. -/
theorem select_probe_not200 (api : JiraAPI) (sc : Scenario) (q e f hdr : String)
    (body : Json) (s : Nat)
    (hq : q ≠ "")
    (hauth : get_auth_header api.jira_username api.jira_password = Except.ok hdr)
    (hprobe : retryRequest api.attempts sc.probeTries = TryOutcome.resp s body)
    (hs4 : s < 400) (hs200 : s ≠ 200) :
    select api (some q) e f sc =
      ([Req.probe (searchPattern q api.max_results e f)],
       PyOutcome.raised "UnboundLocalError") := by
  simp only [select, if_neg hq, hauth, hprobe, handleResult_passed s hs4, if_neg hs200]

/-! ### Claim theorems -/

/-- C1: the claim states `authenticate()` returns true iff the probe status
is in [200,300) and returns false on a rejected status such as 401. The
source refutes it twice: with a non-empty password the inverted guard
`if not self.jira_username or self.jira_password` returns false without
probing even though the probe would be 200, and with an empty password a
401 probe makes `handle_response` call `sys.exit(1)` (a `SystemExit`, not
caught by `except Exception`), terminating the process instead of
returning false. The third conjunct shows the 200 case only succeeds when
the password is empty. -/
theorem C1_authenticate_behavior :
    authenticate ⟨"https://jira", "user", "pass", 3, 20⟩
        (fun _ => TryOutcome.resp 200 Json.null) = PyOutcome.ret false
    ∧ authenticate ⟨"https://jira", "YWJj", "", 3, 20⟩
        (fun _ => TryOutcome.resp 401 Json.null) = PyOutcome.exited 1
    ∧ authenticate ⟨"https://jira", "YWJj", "", 3, 20⟩
        (fun _ => TryOutcome.resp 200 Json.null) = PyOutcome.ret true :=
  ⟨rfl, rfl, rfl⟩

/-- C2 (counterexample): a page whose first attempt returns 503 and whose
second attempt would return 200 yields the empty list in the result of
`select`, although the retried request (through `retryRequest` with
`attempts = 3`) would have produced the second attempt's body — so page
fetches are not retried as the claim states. -/
theorem C2_counterexample :
    (select ⟨"https://jira", "YWJj", "", 3, 20⟩ (some "project = X") "changelog" "*all"
        ⟨fun _ => TryOutcome.resp 200 (Json.obj [("total", Json.num 1)]),
         fun _ n => if n = 0 then TryOutcome.resp 503 Json.null
                    else TryOutcome.resp 200 (Json.num 7)⟩).2 = PyOutcome.ret [Json.arr []]
    ∧ fetchVal (retryRequest 3
        (fun n => if n = 0 then TryOutcome.resp 503 Json.null
                  else TryOutcome.resp 200 (Json.num 7))) = Json.num 7
    ∧ (PyOutcome.ret [Json.arr []] : PyOutcome (List Json)) ≠ PyOutcome.ret [Json.num 7] := by
  refine ⟨rfl, rfl, ?_⟩
  intro h
  injection h with h1
  injection h1 with h2 h3
  exact Json.noConfusion h2

/-- C2 (amended): only the probe goes through the retry client — its outcome
is `retryRequest attempts probeTries` — while each page fetch is issued on
the plain session and consumes exactly one attempt (attempt index 0). The
last two conjuncts state the retry semantics: a non-retryable outcome stops
the loop, a retryable one (5xx in the configured set, or a transport
exception) is retried while attempts remain. -/
theorem C2_retry_scope :
    ∀ (api : JiraAPI) (sc : Scenario) (q e f hdr : String) (body : Json) (t : Int),
    q ≠ "" →
    get_auth_header api.jira_username api.jira_password = Except.ok hdr →
    retryRequest api.attempts sc.probeTries = TryOutcome.resp 200 body →
    pyTotal body = Except.ok t →
    ((select api (some q) e f sc).2 =
        PyOutcome.ret ((pyRangeI t api.max_results).map (fun st => fetchVal (sc.pageTries st 0))))
    ∧ (∀ (tries : Nat → TryOutcome) (i n : Nat),
        retryableOutcome (tries i) = false → retryGo tries i n = tries i)
    ∧ (∀ (tries : Nat → TryOutcome) (i n : Nat),
        retryableOutcome (tries i) = true → retryGo tries i (n + 1) = retryGo tries (i + 1) n) := by
  intro api sc q e f hdr body t hq ha hp htot
  refine ⟨by rw [select_probe200 api sc q e f hdr body t hq ha hp htot], ?_, ?_⟩
  · intro tries i n hfalse
    cases n with
    | zero => rfl
    | succ m => simp [retryGo, hfalse]
  · intro tries i n htrue
    simp [retryGo, htrue]

/-- C2 witness: the amended statement applied to the counterexample
scenario; the single page request at offset 0 yields the empty list from
its one (503) attempt. -/
theorem C2_retry_scope_witness :
    ("q" ≠ "") ∧
    (select ⟨"https://jira", "YWJj", "", 3, 20⟩ (some "q") "changelog" "*all"
        ⟨fun _ => TryOutcome.resp 200 (Json.obj [("total", Json.num 1)]),
         fun _ n => if n = 0 then TryOutcome.resp 503 Json.null
                    else TryOutcome.resp 200 (Json.num 7)⟩).2 = PyOutcome.ret [Json.arr []] :=
  ⟨by decide,
   ((C2_retry_scope ⟨"https://jira", "YWJj", "", 3, 20⟩
      ⟨fun _ => TryOutcome.resp 200 (Json.obj [("total", Json.num 1)]),
       fun _ n => if n = 0 then TryOutcome.resp 503 Json.null
                  else TryOutcome.resp 200 (Json.num 7)⟩
      "q" "changelog" "*all" "abc" (Json.obj [("total", Json.num 1)]) 1
      (by decide) rfl rfl rfl).1).trans (by rfl)⟩

/-- C3: for a probe that completes with status 200 and reads `total = t`
(0 when the key is absent, last conjunct), the offsets of the issued page
fetches are exactly the multiples of `max_results` strictly below `t`, in
increasing order, and a zero total issues no page fetch. -/
theorem C3_offset_sequence :
    ∀ (api : JiraAPI) (sc : Scenario) (q e f hdr : String) (t : Nat),
    q ≠ "" →
    get_auth_header api.jira_username api.jira_password = Except.ok hdr →
    retryRequest api.attempts sc.probeTries =
      TryOutcome.resp 200 (Json.obj [("total", Json.num (t : Int))]) →
    0 < api.max_results →
    ((select api (some q) e f sc).1 =
        Req.probe (searchPattern q api.max_results e f) ::
          (pyRangeI (t : Int) api.max_results).map Req.page)
    ∧ (∀ x : Nat, x ∈ pyRangeI (t : Int) api.max_results ↔ api.max_results ∣ x ∧ x < t)
    ∧ (t = 0 → (select api (some q) e f sc).1 =
        [Req.probe (searchPattern q api.max_results e f)])
    ∧ (∀ kvs : List (String × Json), jsonLookup kvs "total" = none →
        pyTotal (Json.obj kvs) = Except.ok 0) := by
  intro api sc q e f hdr t hq ha hp hm
  have htot : pyTotal (Json.obj [("total", Json.num (t : Int))]) = Except.ok (t : Int) := rfl
  have hsel := select_probe200 api sc q e f hdr _ _ hq ha hp htot
  refine ⟨by rw [hsel], fun x => mem_pyRangeI t api.max_results x hm, ?_, ?_⟩
  · intro ht0
    subst ht0
    rw [hsel]
    simp [pyRangeI_zero]
  · intro kvs hk
    simp [pyTotal, hk]

/-- C3 witness: with `total = 45` and page size 20, the probe is followed by
page fetches at the offsets 0, 20 and 40. -/
theorem C3_offset_sequence_witness :
    ("q" ≠ "") ∧
    ((select ⟨"https://jira", "YWJj", "", 3, 20⟩ (some "q") "changelog" "*all"
        ⟨fun _ => TryOutcome.resp 200 (Json.obj [("total", Json.num 45)]),
         fun _ _ => TryOutcome.resp 200 Json.null⟩).1 =
      [Req.probe (searchPattern "q" 20 "changelog" "*all"),
       Req.page 0, Req.page 20, Req.page 40]) :=
  ⟨by decide,
   ((C3_offset_sequence ⟨"https://jira", "YWJj", "", 3, 20⟩
      ⟨fun _ => TryOutcome.resp 200 (Json.obj [("total", Json.num 45)]),
       fun _ _ => TryOutcome.resp 200 Json.null⟩
      "q" "changelog" "*all" "abc" 45 (by decide) rfl rfl (by decide)).1).trans (by rfl)⟩

/-- C4: when the probe succeeds with status 200, `select` returns normally
(it neither raises nor exits), each page entry being the value of its own
fetch; and any failed attempt (transport exception or non-200 status)
makes that value the empty list, so failures stay isolated per page. -/
theorem C4_page_failures_yield_empty :
    ∀ (api : JiraAPI) (sc : Scenario) (q e f hdr : String) (body : Json) (t : Int),
    q ≠ "" →
    get_auth_header api.jira_username api.jira_password = Except.ok hdr →
    retryRequest api.attempts sc.probeTries = TryOutcome.resp 200 body →
    pyTotal body = Except.ok t →
    ((select api (some q) e f sc).2 =
        PyOutcome.ret ((pyRangeI t api.max_results).map (fun st => fetchVal (sc.pageTries st 0))))
    ∧ (∀ o : TryOutcome,
        (o = TryOutcome.exn ∨ ∃ s b, o = TryOutcome.resp s b ∧ s ≠ 200) →
        fetchVal o = Json.arr []) := by
  intro api sc q e f hdr body t hq ha hp htot
  refine ⟨by rw [select_probe200 api sc q e f hdr body t hq ha hp htot], ?_⟩
  rintro o (rfl | ⟨s, b, rfl, hs⟩)
  · rfl
  · simp [fetchVal, hs]

/-- C4 witness: three pages (total 45), one failing with a transport
exception and two with status 503: `select` still returns, with the empty
list at every failed position. -/
theorem C4_page_failures_yield_empty_witness :
    ("q" ≠ "") ∧
    ((select ⟨"https://jira", "YWJj", "", 3, 20⟩ (some "q") "changelog" "*all"
        ⟨fun _ => TryOutcome.resp 200 (Json.obj [("total", Json.num 45)]),
         fun st _ => if st = 0 then TryOutcome.exn else TryOutcome.resp 503 Json.null⟩).2 =
      PyOutcome.ret [Json.arr [], Json.arr [], Json.arr []]) :=
  ⟨by decide,
   ((C4_page_failures_yield_empty ⟨"https://jira", "YWJj", "", 3, 20⟩
      ⟨fun _ => TryOutcome.resp 200 (Json.obj [("total", Json.num 45)]),
       fun st _ => if st = 0 then TryOutcome.exn else TryOutcome.resp 503 Json.null⟩
      "q" "changelog" "*all" "abc" (Json.obj [("total", Json.num 45)]) 45
      (by decide) rfl rfl rfl).1).trans (by rfl)⟩

/-- C5: the claim states the Basic header value is the base64 encoding of
`username:secret`. The source instead base64-DECODES the pair: on
`("u", "p")` it raises `binascii.Error` where the encoding would be
`"dTpw"`, and on `("YWJj", "")` it returns the decoding `"abc"` of the
credential string rather than its encoding `"WVdKajo="`. -/
theorem C5_auth_header_decoded_not_encoded :
    get_auth_header "u" "p" = Except.error "binascii.Error: Incorrect padding"
    ∧ b64encode "u:p" = "dTpw"
    ∧ get_auth_header "u" "p" ≠ Except.ok (b64encode "u:p")
    ∧ get_auth_header "YWJj" "" = Except.ok "abc"
    ∧ b64encode "YWJj:" = "WVdKajo=" := by
  refine ⟨rfl, rfl, ?_, rfl, rfl⟩
  intro h
  rw [show get_auth_header "u" "p" =
      Except.error "binascii.Error: Incorrect padding" from rfl] at h
  exact Except.noConfusion h

/-- C6: a missing or empty JQL query makes `select` exit with code 1 before
any request is recorded. -/
theorem C6_empty_query_exits_without_request :
    ∀ (api : JiraAPI) (sc : Scenario) (e f : String) (jq : Option String),
    jq = none ∨ jq = some "" →
    select api jq e f sc = ([], PyOutcome.exited 1) := by
  rintro api sc e f jq (rfl | rfl) <;> rfl

/-- C6 witness: the empty query at a concrete configuration. -/
theorem C6_empty_query_witness :
    ((some "" : Option String) = none ∨ (some "" : Option String) = some "") ∧
    select ⟨"https://jira", "admin", "secret", 3, 20⟩ (some "") "changelog" "*all"
      ⟨fun _ => TryOutcome.exn, fun _ _ => TryOutcome.exn⟩ = ([], PyOutcome.exited 1) :=
  ⟨Or.inr rfl,
   C6_empty_query_exits_without_request ⟨"https://jira", "admin", "secret", 3, 20⟩
     ⟨fun _ => TryOutcome.exn, fun _ _ => TryOutcome.exn⟩ "changelog" "*all"
     (some "") (Or.inr rfl)⟩

/-- C7: the percent-encoding used by `select` leaves each of the characters
`/ ? : = , &` literal wherever it occurs in the query, while the space, a
reserved character outside the safe set, is encoded as `%20`. -/
theorem C7_safe_chars_literal :
    ∀ (s₁ s₂ : String) (c : Char), c ∈ ['/', '?', ':', '=', ',', '&'] →
    (pyQuote jiraSafe (s₁ ++ String.singleton c ++ s₂) =
        pyQuote jiraSafe s₁ ++ String.singleton c ++ pyQuote jiraSafe s₂)
    ∧ (pyQuote jiraSafe (s₁ ++ " " ++ s₂) =
        pyQuote jiraSafe s₁ ++ "%20" ++ pyQuote jiraSafe s₂) := by
  intro s₁ s₂ c hc
  constructor
  · rw [pyQuote_append, pyQuote_append]
    have hq : pyQuote jiraSafe (String.singleton c) = String.singleton c := by
      fin_cases hc <;> rfl
    rw [hq]
  · rw [pyQuote_append, pyQuote_append]
    rw [show pyQuote jiraSafe " " = "%20" from rfl]

/-- C7 witness: a slash inside a query stays literal and a space is
percent-encoded. -/
theorem C7_safe_chars_literal_witness :
    ('/' ∈ (['/', '?', ':', '=', ',', '&'] : List Char)) ∧
    (pyQuote jiraSafe ("a" ++ String.singleton '/' ++ "b c") =
        pyQuote jiraSafe "a" ++ String.singleton '/' ++ pyQuote jiraSafe "b c")
    ∧ (pyQuote jiraSafe ("a" ++ " " ++ "b c") =
        pyQuote jiraSafe "a" ++ "%20" ++ pyQuote jiraSafe "b c") :=
  ⟨by decide, C7_safe_chars_literal "a" "b c" '/' (by decide)⟩

/-- C8 (counterexample): a 301 response has a status outside [200,300) yet
passes through `handle_response` with no error log and no exit, because
`raise_for_status` only raises for statuses of 400 and above — refuting the
claim for non-2xx statuses below 400. -/
theorem C8_counterexample :
    ¬ (200 ≤ 301 ∧ 301 < 300) ∧
    handle_response 301 "Moved Permanently" "https://jira/rest/api/2/mypermissions" =
      ([], HandleResult.passed) :=
  ⟨by omega, rfl⟩

/-- C8 (amended): for every response with status at least 400,
`handle_response` logs the failure — a distinct resource-not-found line for
404, status code and reason otherwise — and then exits the process with
code 1 instead of returning an error value. -/
theorem C8_error_handling :
    ∀ (s : Nat) (reason url : String), 400 ≤ s →
    (s = 404 → handle_response s reason url =
        (["Resource not found " ++ url], HandleResult.exit1))
    ∧ (s ≠ 404 → handle_response s reason url =
        (["Error during request: " ++ toString s ++ ", message=\x27" ++ reason ++ "\x27",
          "Status code: " ++ toString s], HandleResult.exit1)) := by
  intro s reason url h
  constructor
  · intro h4
    subst h4
    rfl
  · intro h4
    simp only [handle_response, if_pos h, if_neg h4]

/-- C8 witness: the amended statement at status 500. -/
theorem C8_error_handling_witness :
    (400 ≤ 500) ∧
    ((500 = 404 → handle_response 500 "Internal Server Error" "u" =
        (["Resource not found " ++ "u"], HandleResult.exit1))
    ∧ (500 ≠ 404 → handle_response 500 "Internal Server Error" "u" =
        (["Error during request: " ++ toString 500 ++ ", message=\x27" ++
            "Internal Server Error" ++ "\x27",
          "Status code: " ++ toString 500], HandleResult.exit1))) :=
  ⟨by omega, C8_error_handling 500 "Internal Server Error" "u" (by omega)⟩

/-- C9: a probe response whose status is 2xx but not exactly 200 passes
`handle_response` without exiting, skips the 200 branch of `select`, and
reaches `return results` with `results` unassigned: `select` raises
`UnboundLocalError` instead of returning a list. -/
theorem C9_non200_2xx_raises_unbound_local :
    ∀ (api : JiraAPI) (sc : Scenario) (q e f hdr : String) (s : Nat) (body : Json),
    q ≠ "" →
    get_auth_header api.jira_username api.jira_password = Except.ok hdr →
    retryRequest api.attempts sc.probeTries = TryOutcome.resp s body →
    200 ≤ s → s < 300 → s ≠ 200 →
    (select api (some q) e f sc).2 = PyOutcome.raised "UnboundLocalError" := by
  intro api sc q e f hdr s body hq ha hp h1 h2 h3
  rw [select_probe_not200 api sc q e f hdr body s hq ha hp (by omega) h3]

/-- C9 witness: a 204 probe response makes `select` raise
`UnboundLocalError`. -/
theorem C9_non200_2xx_witness :
    ((204 : Nat) ≠ 200) ∧
    (select ⟨"https://jira", "YWJj", "", 3, 20⟩ (some "project = X") "changelog" "*all"
        ⟨fun _ => TryOutcome.resp 204 Json.null, fun _ _ => TryOutcome.exn⟩).2 =
      PyOutcome.raised "UnboundLocalError" :=
  ⟨by decide,
   C9_non200_2xx_raises_unbound_local ⟨"https://jira", "YWJj", "", 3, 20⟩
     ⟨fun _ => TryOutcome.resp 204 Json.null, fun _ _ => TryOutcome.exn⟩
     "project = X" "changelog" "*all" "abc" 204 Json.null
     (by decide) rfl rfl (by omega) (by omega) (by decide)⟩

/-- C10: on a 200 page response `fetch` returns the entire parsed body, and
every element of the list returned by `select` is either the raw body of a
200 first attempt of its page or the empty list. -/
theorem C10_select_entries_raw_bodies :
    ∀ (api : JiraAPI) (sc : Scenario) (q e f hdr : String) (body : Json) (t : Int),
    q ≠ "" →
    get_auth_header api.jira_username api.jira_password = Except.ok hdr →
    retryRequest api.attempts sc.probeTries = TryOutcome.resp 200 body →
    pyTotal body = Except.ok t →
    (∀ b : Json, fetchVal (TryOutcome.resp 200 b) = b)
    ∧ ((select api (some q) e f sc).2 =
        PyOutcome.ret ((pyRangeI t api.max_results).map (fun st => fetchVal (sc.pageTries st 0))))
    ∧ (∀ l : List Json, (select api (some q) e f sc).2 = PyOutcome.ret l →
        ∀ x ∈ l,
          (∃ st b, sc.pageTries st 0 = TryOutcome.resp 200 b ∧ x = b) ∨ x = Json.arr []) := by
  intro api sc q e f hdr body t hq ha hp htot
  have hsel := select_probe200 api sc q e f hdr body t hq ha hp htot
  refine ⟨fun b => rfl, by rw [hsel], ?_⟩
  intro l hl x hx
  rw [hsel] at hl
  injection hl with hl1
  subst hl1
  rcases List.mem_map.1 hx with ⟨st, hstm, heq⟩
  rcases hout : sc.pageTries st 0 with _ | ⟨s, b⟩
  · right
    rw [← heq, hout]
    rfl
  · by_cases h200 : s = 200
    · subst h200
      exact Or.inl ⟨st, b, hout, by rw [← heq, hout]; rfl⟩
    · right
      rw [← heq, hout]
      simp [fetchVal, h200]

/-- C10 witness: with two pages, a 200 page whose body is a JSON string and
a 404 page, `select` returns the raw body and the empty list. -/
theorem C10_select_entries_witness :
    ("q" ≠ "") ∧
    ((select ⟨"https://jira", "YWJj", "", 3, 20⟩ (some "q") "changelog" "*all"
        ⟨fun _ => TryOutcome.resp 200 (Json.obj [("total", Json.num 25)]),
         fun st _ => if st = 0 then TryOutcome.resp 200 (Json.str "pageA")
                     else TryOutcome.resp 404 Json.null⟩).2 =
      PyOutcome.ret [Json.str "pageA", Json.arr []]) :=
  ⟨by decide,
   ((C10_select_entries_raw_bodies ⟨"https://jira", "YWJj", "", 3, 20⟩
      ⟨fun _ => TryOutcome.resp 200 (Json.obj [("total", Json.num 25)]),
       fun st _ => if st = 0 then TryOutcome.resp 200 (Json.str "pageA")
                   else TryOutcome.resp 404 Json.null⟩
      "q" "changelog" "*all" "abc" (Json.obj [("total", Json.num 25)]) 25
      (by decide) rfl rfl rfl).2.1).trans (by rfl)⟩
